import Mathlib

/-!
Verification of the performance-portal dashboard
(src/performance_portal/performance_portal.py) against its specification.

The script is embedded shallowly: currency amounts travel as exact rationals
(the Python code converts the API's string fields with `float(...)`; the claims
under study are about exact decimal arithmetic and 2-decimal formatting, which
the rationals model faithfully), Streamlit output commands become constructors
of a `Widget` type collected into a list, and an uncaught Python exception is
an `Except.error` aborting the render pass.
-/

namespace PerformancePortal

/-! ## Formatting helpers: Python `f"{x:,.2f}"`, `f"{x:.2f}"`, `str.title()` -/

/-- Round a rational to the nearest integer, ties to even, as Python's fixed
point formatting of a value does.  Written on the numerator and denominator so
that it evaluates by kernel reduction: `f` is the floor of `q` and
`twice = 2 * (q - f) * den`, so `twice < den` means the fractional part is
below one half. -/
def roundHalfEven (q : ℚ) : ℤ :=
  let n : ℤ := q.num
  let d : ℤ := (q.den : ℤ)
  let f : ℤ := n.fdiv d
  let twice : ℤ := 2 * (n - f * d)
  if twice < d then f
  else if d < twice then f + 1
  else if f % 2 = 0 then f else f + 1

/-- Insert a comma after every group of three digits, on a reversed digit
list (thousands grouping of Python's `,` format flag). -/
def groupThreesRev : List Char → List Char
  | [] => []
  | [a] => [a]
  | [a, b] => [a, b]
  | [a, b, c] => [a, b, c]
  | a :: b :: c :: d :: rest => a :: b :: c :: ',' :: groupThreesRev (d :: rest)

/-- Thousands grouping of a digit string. -/
def commaGroup (s : String) : String :=
  ⟨(groupThreesRev s.toList.reverse).reverse⟩

/-- Zero-pad a numeral below 100 to two digits. -/
def pad2 (n : Nat) : String :=
  if n < 10 then "0" ++ toString n else toString n

/-- Python `f"{q:,.2f}"`: two decimal places, thousands grouping. -/
def formatComma2 (q : ℚ) : String :=
  let c : ℤ := roundHalfEven (100 * q)
  (if c < 0 then "-" else "")
    ++ commaGroup (toString (c.natAbs / 100)) ++ "." ++ pad2 (c.natAbs % 100)

/-- Python `f"${q:,.2f}"` as used for every currency cell of the dashboard. -/
def formatUSD (q : ℚ) : String := "$" ++ formatComma2 q

/-- Python `f"{q:.2f}"`: two decimal places, no grouping. -/
def format2 (q : ℚ) : String :=
  let c : ℤ := roundHalfEven (100 * q)
  (if c < 0 then "-" else "")
    ++ toString (c.natAbs / 100) ++ "." ++ pad2 (c.natAbs % 100)

/-- Python `str.title()` on one character run: uppercase a letter that does
not follow a letter, lowercase the rest. -/
def pyTitleAux : Bool → List Char → List Char
  | _, [] => []
  | prevAlpha, ch :: rest =>
    if ch.isAlpha then
      (if prevAlpha then ch.toLower else ch.toUpper) :: pyTitleAux true rest
    else
      ch :: pyTitleAux false rest

/-- Python `str.title()`. -/
def pyTitle (s : String) : String := ⟨pyTitleAux false s.toList⟩

/-! ## Data model (fields as named by the Alpaca entities the script reads) -/

/-- Account snapshot (`api.get_account()`), currency fields as exact
rationals. -/
structure Account where
  portfolio_value : ℚ
  cash : ℚ
  equity : ℚ
  last_equity : ℚ
  deriving DecidableEq, Repr

/-- Open position (`api.list_positions()`). -/
structure Position where
  symbol : String
  qty : ℚ
  side : String
  market_value : ℚ
  cost_basis : ℚ
  unrealized_pl : ℚ
  unrealized_plpc : ℚ
  deriving DecidableEq, Repr

/-- Closed order (`api.list_orders(...)`). A canceled order carries no fill:
`filled_avg_price` (and possibly `filled_qty` / `filled_at`) is `None`, which
the `Option` fields model; `filled_at` is modelled as epoch seconds. -/
structure Order where
  symbol : String
  filled_qty : Option ℚ
  side : String
  order_type : String
  filled_avg_price : Option ℚ
  status : String
  filled_at : Option Nat
  deriving DecidableEq, Repr

/-- One row of the portfolio-history frame (`api.get_portfolio_history`). -/
structure HistoryPoint where
  timestamp : Nat
  equity : ℚ
  profit_loss : ℚ
  profit_loss_pct : ℚ
  deriving DecidableEq, Repr

/-! ## Timestamp rendering: `pd.to_datetime(...).strftime('%Y-%m-%d %H:%M:%S')` -/

/-- Civil date from a day count since 1970-01-01 (valid for nonnegative epoch
times): year, month, day. -/
def civilFromDays (days : Nat) : Nat × Nat × Nat :=
  let z := days + 719468
  let era := z / 146097
  let doe := z % 146097
  let yoe := (doe - doe / 1460 + doe / 36524 - doe / 146096) / 365
  let y := yoe + era * 400
  let doy := doe - (365 * yoe + yoe / 4 - yoe / 100)
  let mp := (5 * doy + 2) / 153
  let d := doy - (153 * mp + 2) / 5 + 1
  let m := if mp < 10 then mp + 3 else mp - 9
  (if m ≤ 2 then y + 1 else y, m, d)

/-- `'%Y-%m-%d %H:%M:%S'` rendering of an epoch-seconds timestamp. -/
def formatTimestamp (t : Nat) : String :=
  let c := civilFromDays (t / 86400)
  let secs := t % 86400
  toString c.1 ++ "-" ++ pad2 c.2.1 ++ "-" ++ pad2 c.2.2 ++ " "
    ++ pad2 (secs / 3600) ++ ":" ++ pad2 (secs % 3600 / 60) ++ ":" ++ pad2 (secs % 60)

/-! ## Display rows and widgets -/

/-- One row of the positions table (the dict built at lines 97-105; every
value except `qty` is already a formatted string there). -/
structure PositionRow where
  symbol : String
  qty : ℚ
  side : String
  market_value : String
  cost_basis : String
  unrealized_pl : String
  unrealized_plpc : String
  deriving DecidableEq, Repr

/-- One row of the orders table (the dict built at lines 115-123). -/
structure OrderRow where
  symbol : String
  qty : ℚ
  side : String
  order_type : String
  avg_fill_price : String
  status : String
  filled_at : String
  deriving DecidableEq, Repr

/-- A Streamlit output command recorded by the render pass.  The two
dataframes carry different row shapes (their dict column sets differ), hence
two constructors. -/
inductive Widget where
  | stTitle (text : String)
  | stButton (label : String)
  | stError (msg : String)
  | stWarning (msg : String)
  | stInfo (msg : String)
  | stHeader (text : String)
  | stMetric (label : String) (value : String)
  | stLineChart (points : List HistoryPoint)
  | stDataframePositions (rows : List PositionRow)
  | stDataframeOrders (rows : List OrderRow)
  deriving DecidableEq, Repr

/-- Lines 97-105: a position row.  Total: every field the loop reads is
present on an open position. -/
def buildPositionRow (p : Position) : PositionRow :=
  { symbol := p.symbol
    qty := p.qty
    side := pyTitle p.side
    market_value := formatUSD p.market_value
    cost_basis := formatUSD p.cost_basis
    unrealized_pl := formatUSD p.unrealized_pl
    unrealized_plpc := format2 (p.unrealized_plpc * 100) ++ "%" }

/-- Lines 115-123: an order row.  `float(None)` raises a `TypeError` and
`pd.to_datetime(None).strftime` raises, so a missing fill field aborts the
row (and with it the whole render pass): the code has no `None` guard. -/
def buildOrderRow (o : Order) : Except String OrderRow :=
  match o.filled_qty with
  | none => .error "TypeError: float() argument must not be None"
  | some q =>
    match o.filled_avg_price with
    | none => .error "TypeError: float() argument must not be None"
    | some price =>
      match o.filled_at with
      | none => .error "ValueError: NaTType does not support strftime"
      | some t =>
        .ok { symbol := o.symbol
              qty := q
              side := pyTitle o.side
              order_type := pyTitle o.order_type
              avg_fill_price := formatUSD price
              status := pyTitle o.status
              filled_at := formatTimestamp t }

/-- The `for o in orders` loop, appending rows in list order; the first
failing row aborts the pass. -/
def buildOrderRows : List Order → Except String (List OrderRow)
  | [] => .ok []
  | o :: os =>
    match buildOrderRow o with
    | .error e => .error e
    | .ok r =>
      match buildOrderRows os with
      | .error e => .error e
      | .ok rs => .ok (r :: rs)

/-! ## The two cached fetch helpers (widget side effects made explicit) -/

/-- A brokerage API failure (`APIError`), carrying its message. -/
structure ApiError where
  msg : String
  deriving DecidableEq, Repr

/-- Result of `get_account_data()` (lines 34-44): the returned triple, the
Streamlit widgets it emitted, and the `logging` records it wrote. -/
structure AccountFetchResult where
  data : Option Account × List Position × List Order
  widgets : List Widget
  logs : List String
  deriving DecidableEq, Repr

/-- Result of `get_portfolio_history()` (lines 46-61). -/
structure HistoryFetchResult where
  data : List HistoryPoint
  widgets : List Widget
  logs : List String
  deriving DecidableEq, Repr

/-- Lines 34-44.  On `APIError` the helper shows `st.error` (no `st.warning`
and no `logging` call appear in the handler) and substitutes
`(None, [], [])`. -/
def get_account_data (fetch : Except ApiError (Account × List Position × List Order)) :
    AccountFetchResult :=
  match fetch with
  | .ok (a, ps, os) => { data := (some a, ps, os), widgets := [], logs := [] }
  | .error e =>
    { data := (none, [], [])
      widgets := [Widget.stError ("Error fetching data from Alpaca: " ++ e.msg)]
      logs := [] }

/-- Lines 46-61.  On `APIError` the helper shows `st.error` and substitutes
an empty frame. -/
def get_portfolio_history (fetch : Except ApiError (List HistoryPoint)) :
    HistoryFetchResult :=
  match fetch with
  | .ok h => { data := h, widgets := [], logs := [] }
  | .error e =>
    { data := []
      widgets := [Widget.stError ("Error fetching portfolio history: " ++ e.msg)]
      logs := [] }

/-! ## The render pass (lines 64-129) -/

/-- Lines 77-82: the four KPI metrics under the account guard. -/
def kpiWidgets (baseline : ℚ) (a : Account) : List Widget :=
  [Widget.stHeader "Key Performance Indicators",
   Widget.stMetric "Portfolio Value" (formatUSD a.portfolio_value),
   Widget.stMetric "Cash Balance" (formatUSD a.cash),
   Widget.stMetric "Today\x27s P/L" (formatUSD (a.equity - a.last_equity)),
   Widget.stMetric "Total P/L" (formatUSD (a.equity - baseline))]

/-- Lines 86-90: chart if the history frame is nonempty, else a warning. -/
def historySection (history : List HistoryPoint) : List Widget :=
  match history with
  | [] => [Widget.stWarning "Could not load portfolio history chart."]
  | _ :: _ => [Widget.stLineChart history]

/-- Lines 94-108: positions dataframe if nonempty, else `st.info`. -/
def positionsSection (positions : List Position) : List Widget :=
  match positions with
  | [] => [Widget.stInfo "No open positions."]
  | _ :: _ => [Widget.stDataframePositions (positions.map buildPositionRow)]

/-- Lines 112-126: orders dataframe if nonempty, else `st.info`; a row
failure aborts the pass. -/
def ordersSection (orders : List Order) : Except String (List Widget) :=
  match orders with
  | [] => .ok [Widget.stInfo "No recent closed orders found."]
  | _ :: _ =>
    match buildOrderRows orders with
    | .error e => .error e
    | .ok rows => .ok [Widget.stDataframeOrders rows]

/-- Lines 75-129: the account-guarded region.  With no account only the
single `st.error` of line 129 is emitted. -/
def renderMain (baseline : ℚ) (account : Option Account) (positions : List Position)
    (orders : List Order) (history : List HistoryPoint) : Except String (List Widget) :=
  match account with
  | none => .ok [Widget.stError "Could not connect to Alpaca to fetch account data."]
  | some a =>
    match ordersSection orders with
    | .error e => .error e
    | .ok osec =>
      .ok (kpiWidgets baseline a
        ++ [Widget.stHeader "Portfolio Value Over Time (30 Days)"]
        ++ historySection history
        ++ [Widget.stHeader "Current Open Positions"]
        ++ positionsSection positions
        ++ [Widget.stHeader "Recent Closed Orders (Last 100)"]
        ++ osec)

/-- One full render pass of the script body (lines 64-129), fed by the two
fetch outcomes.  An `Except.error` is an uncaught Python exception aborting
the pass. -/
def runDashboard (baseline : ℚ)
    (accountFetch : Except ApiError (Account × List Position × List Order))
    (historyFetch : Except ApiError (List HistoryPoint)) :
    Except String (List Widget) :=
  match renderMain baseline (get_account_data accountFetch).data.1
      (get_account_data accountFetch).data.2.1 (get_account_data accountFetch).data.2.2
      (get_portfolio_history historyFetch).data with
  | .error e => .error e
  | .ok body =>
    .ok ([Widget.stTitle "📈 Alpaca Trading Performance Overview",
          Widget.stButton "Refresh Data"]
      ++ (get_account_data accountFetch).widgets
      ++ (get_portfolio_history historyFetch).widgets ++ body)

/-! ## The closed-orders endpoint (line 40) -/

/-- Sort key for `direction='desc'`: epoch time of the fill, `None` sorting
oldest. -/
def orderKey (o : Order) : Nat := o.filled_at.getD 0

/-- `a` is at least as new as `b`. -/
def newerFirst (a b : Order) : Prop := orderKey b ≤ orderKey a

instance : DecidableRel newerFirst := fun a b => Nat.decLe (orderKey b) (orderKey a)

instance : IsTotal Order newerFirst :=
  ⟨fun a b => Nat.le_total (orderKey b) (orderKey a)⟩

instance : IsTrans Order newerFirst :=
  ⟨fun _ _ _ hab hbc => Nat.le_trans hbc hab⟩

/-- Modelled from the spec: the Market Data Client (the external
`api.list_orders` call of line 40, whose implementation is not in this
repository) honors the requested `limit` and `direction='desc'`, returning
at most `limit` of the source's closed orders, newest first by `filled_at`. -/
def list_orders (src : List Order) (limit : Nat) : List Order :=
  (List.insertionSort newerFirst src).take limit

/-! ## The `st.cache_data` time-to-live caches and the refresh button -/

/-- The two process-wide `st.cache_data` entries (value with the time it was
stored), one per helper; each helper takes no argument, so one entry
suffices. -/
structure DashCache (A H : Type) where
  account : Option (Nat × A)
  history : Option (Nat × H)
  deriving DecidableEq, Repr

/-- `st.cache_data(ttl=...)` lookup, modelled from the spec's time-to-live
contract: a stored value is served while its age is below `ttl` seconds,
otherwise the wrapped function runs again and its result is stored.  Returns
the value, the new cache entry and whether a remote call happened. -/
def cacheGet {A : Type} (ttl now : Nat) (entry : Option (Nat × A)) (remote : A) :
    A × Option (Nat × A) × Bool :=
  match entry with
  | some (t0, v) =>
    if now < t0 + ttl then (v, some (t0, v), false)
    else (remote, some (now, remote), true)
  | none => (remote, some (now, remote), true)

/-- `get_account_data()` through its 5-minute (`ttl=300`) cache (line 34). -/
def fetchAccountCached {A H : Type} (c : DashCache A H) (now : Nat) (remote : A) :
    A × DashCache A H × Bool :=
  let r := cacheGet 300 now c.account remote
  (r.1, { c with account := r.2.1 }, r.2.2)

/-- `get_portfolio_history()` through its 1-hour (`ttl=3600`) cache
(line 46). -/
def fetchHistoryCached {A H : Type} (c : DashCache A H) (now : Nat) (remote : H) :
    H × DashCache A H × Bool :=
  let r := cacheGet 3600 now c.history remote
  (r.1, { c with history := r.2.1 }, r.2.2)

/-- Lines 69-70: the "Refresh Data" button runs `st.cache_data.clear()`,
which drops every `st.cache_data` entry. -/
def refreshData {A H : Type} (_c : DashCache A H) : DashCache A H :=
  { account := none, history := none }

/-! ## Secrets and startup (lines 21-31) -/

/-- The fields the script reads from `st.secrets`; `none` is an absent
key. -/
structure Secrets where
  api_key : Option String
  secret_key : Option String
  base_url : Option String
  total_portfolio_cash : Option String
  deriving DecidableEq, Repr

/-- The configuration assembled by the `try` block. -/
structure Config where
  api_key : String
  api_secret : String
  base_url : String
  baseline_cash : ℚ
  deriving DecidableEq, Repr

/-- All characters are decimal digits. -/
def allDigits (l : List Char) : Bool := l.all Char.isDigit

/-- Numeric value of a digit list. -/
def digitsToNat (l : List Char) : Nat :=
  l.foldl (fun acc c => 10 * acc + (c.toNat - 48)) 0

/-- Python `float(s)` on a plain decimal literal: optional sign, digits with
at most one decimal point, at least one digit; anything else raises
`ValueError` (`none`). -/
def parseFloat (s : String) : Option ℚ :=
  let l := s.toList
  let signNeg : Bool := match l with
    | '-' :: _ => true
    | _ => false
  let l2 : List Char := match l with
    | '-' :: r => r
    | '+' :: r => r
    | _ => l
  let ip := l2.takeWhile (fun c => c ≠ '.')
  let rest := l2.dropWhile (fun c => c ≠ '.')
  let fp := rest.tail
  if allDigits ip && allDigits fp && (!ip.isEmpty || !fp.isEmpty) then
    some ((if signNeg then -1 else 1) *
      ((digitsToNat ip : ℚ) + (digitsToNat fp : ℚ) / ((10 : ℚ) ^ fp.length)))
  else
    none

/-- Lines 22-25: read the secrets.  A missing key raises `KeyError`, a
non-numeric `total_portfolio_cash` raises `ValueError`; `base_url` alone has
a `.get` default. -/
def load_credentials (s : Secrets) : Except String Config :=
  match s.api_key with
  | none => .error "KeyError: api_key"
  | some key =>
    match s.secret_key with
    | none => .error "KeyError: secret_key"
    | some sec =>
      let base := s.base_url.getD "https://paper-api.alpaca.markets"
      match s.total_portfolio_cash with
      | none => .error "KeyError: total_portfolio_cash"
      | some raw =>
        match parseFloat raw with
        | none => .error "ValueError: could not convert string to float"
        | some cash => .ok { api_key := key, api_secret := sec, base_url := base,
                             baseline_cash := cash }

/-- Outcome of the startup block: either a running script with its success
log line, or a halt (`st.error` then `st.stop`). -/
inductive StartupResult where
  | started (cfg : Config) (logs : List String)
  | halted (widgets : List Widget)
  deriving DecidableEq, Repr

/-- Lines 21-31: any exception in the `try` block shows one fatal `st.error`
and stops the script; there is no retry and no default for a required
secret. -/
def startup (s : Secrets) : StartupResult :=
  match load_credentials s with
  | .ok cfg => .started cfg ["✅ Alpaca API connection successful."]
  | .error _ =>
    .halted [Widget.stError
      "FATAL: Could not connect to Alpaca API. Have you set your secrets in the Streamlit dashboard?"]

/-! ## Small helpers for stating concrete witnesses -/

/-- The widget list of a successful render pass (empty on an aborted
pass). -/
def okWidgets (r : Except String (List Widget)) : List Widget :=
  match r with
  | .ok ws => ws
  | .error _ => []

/-- Number of `st.error` boxes on the page. -/
def errorCount (ws : List Widget) : Nat :=
  (ws.filter fun w => match w with
    | Widget.stError _ => true
    | _ => false).length

/-- A concrete valid account snapshot: the spec's example scenario. -/
def sampleAccount : Account :=
  { portfolio_value := 10532050 / 100
    cash := 1250000 / 100
    equity := 10532050 / 100
    last_equity := 10480000 / 100 }

/-- A concrete open position: the spec's example scenario. -/
def examplePosition : Position :=
  { symbol := "AAPL"
    qty := 10
    side := "long"
    market_value := 1500
    cost_basis := 1420
    unrealized_pl := 80
    unrealized_plpc := 532 / 10000 }

/-- A concrete canceled order with no fill, as the Order model admits. -/
def canceledOrder : Order :=
  { symbol := "AAPL"
    filled_qty := some 0
    side := "buy"
    order_type := "market"
    filled_avg_price := none
    status := "canceled"
    filled_at := none }

/-- A concrete filled order. -/
def sampleOrder : Order :=
  { symbol := "AAPL"
    filled_qty := some 5
    side := "buy"
    order_type := "market"
    filled_avg_price := some (18950 / 100)
    status := "filled"
    filled_at := some 1700000000 }

/-- The rows of a successful orders-table build (empty on failure). -/
def okOrderRows (r : Except String (List OrderRow)) : List OrderRow :=
  match r with
  | .ok rows => rows
  | .error _ => []

/-! ## Structural lemmas about the render pass -/

theorem runDashboard_ok_shape (baseline : ℚ)
    (af : Except ApiError (Account × List Position × List Order))
    (hf : Except ApiError (List HistoryPoint)) (ws : List Widget)
    (h : runDashboard baseline af hf = Except.ok ws) :
    ∃ body, renderMain baseline (get_account_data af).data.1 (get_account_data af).data.2.1
        (get_account_data af).data.2.2 (get_portfolio_history hf).data = Except.ok body ∧
      ws = [Widget.stTitle "📈 Alpaca Trading Performance Overview",
            Widget.stButton "Refresh Data"]
        ++ (get_account_data af).widgets ++ (get_portfolio_history hf).widgets ++ body := by
  simp only [runDashboard] at h
  split at h
  · exact absurd h (by simp)
  · rename_i body hb
    refine ⟨body, hb, ?_⟩
    injection h with h2
    exact h2.symm

theorem renderMain_some_ok (baseline : ℚ) (a : Account) (ps : List Position)
    (os : List Order) (hist : List HistoryPoint) (body : List Widget)
    (h : renderMain baseline (some a) ps os hist = Except.ok body) :
    ∃ osec, ordersSection os = Except.ok osec ∧
      body = kpiWidgets baseline a
        ++ [Widget.stHeader "Portfolio Value Over Time (30 Days)"]
        ++ historySection hist
        ++ [Widget.stHeader "Current Open Positions"]
        ++ positionsSection ps
        ++ [Widget.stHeader "Recent Closed Orders (Last 100)"]
        ++ osec := by
  simp only [renderMain] at h
  split at h
  · exact absurd h (by simp)
  · rename_i osec hos
    refine ⟨osec, hos, ?_⟩
    injection h with h2
    exact h2.symm

theorem mem_kpiWidgets {w : Widget} {baseline : ℚ} {a : Account}
    (h : w ∈ kpiWidgets baseline a) :
    (∃ t, w = Widget.stHeader t) ∨ ∃ l v, w = Widget.stMetric l v := by
  simp only [kpiWidgets, List.mem_cons, List.not_mem_nil, or_false] at h
  rcases h with h | h | h | h | h
  · exact .inl ⟨_, h⟩
  · exact .inr ⟨_, _, h⟩
  · exact .inr ⟨_, _, h⟩
  · exact .inr ⟨_, _, h⟩
  · exact .inr ⟨_, _, h⟩

theorem mem_historySection {w : Widget} {hist : List HistoryPoint}
    (h : w ∈ historySection hist) :
    w = Widget.stWarning "Could not load portfolio history chart." ∨
      ∃ pts, w = Widget.stLineChart pts := by
  cases hist with
  | nil =>
    simp only [historySection, List.mem_cons, List.not_mem_nil, or_false] at h
    exact .inl h
  | cons p l =>
    simp only [historySection, List.mem_cons, List.not_mem_nil, or_false] at h
    exact .inr ⟨_, h⟩

theorem mem_positionsSection {w : Widget} {ps : List Position}
    (h : w ∈ positionsSection ps) :
    w = Widget.stInfo "No open positions." ∨
      ∃ rows, w = Widget.stDataframePositions rows := by
  cases ps with
  | nil =>
    simp only [positionsSection, List.mem_cons, List.not_mem_nil, or_false] at h
    exact .inl h
  | cons p l =>
    simp only [positionsSection, List.mem_cons, List.not_mem_nil, or_false] at h
    exact .inr ⟨_, h⟩

theorem mem_ordersSection {w : Widget} {os : List Order} {osec : List Widget}
    (h1 : ordersSection os = Except.ok osec) (h2 : w ∈ osec) :
    w = Widget.stInfo "No recent closed orders found." ∨
      ∃ rows, buildOrderRows os = Except.ok rows ∧ w = Widget.stDataframeOrders rows := by
  cases os with
  | nil =>
    simp only [ordersSection] at h1
    injection h1 with h1
    subst h1
    simp only [List.mem_cons, List.not_mem_nil, or_false] at h2
    exact .inl h2
  | cons o os' =>
    simp only [ordersSection] at h1
    split at h1
    · exact absurd h1 (by simp)
    · rename_i rows hrows
      injection h1 with h1
      subst h1
      simp only [List.mem_cons, List.not_mem_nil, or_false] at h2
      exact .inr ⟨rows, hrows, h2⟩

theorem mem_account_widgets {w : Widget}
    {af : Except ApiError (Account × List Position × List Order)}
    (h : w ∈ (get_account_data af).widgets) : ∃ m, w = Widget.stError m := by
  cases af with
  | ok v =>
    simp [get_account_data] at h
  | error e =>
    simp only [get_account_data, List.mem_cons, List.not_mem_nil, or_false] at h
    exact ⟨_, h⟩

theorem mem_history_widgets {w : Widget} {hf : Except ApiError (List HistoryPoint)}
    (h : w ∈ (get_portfolio_history hf).widgets) : ∃ m, w = Widget.stError m := by
  cases hf with
  | ok v =>
    simp [get_portfolio_history] at h
  | error e =>
    simp only [get_portfolio_history, List.mem_cons, List.not_mem_nil, or_false] at h
    exact ⟨_, h⟩

theorem buildOrderRows_length {os : List Order} {rows : List OrderRow}
    (h : buildOrderRows os = Except.ok rows) : rows.length = os.length := by
  induction os generalizing rows with
  | nil =>
    simp only [buildOrderRows] at h
    injection h with h
    subst h
    rfl
  | cons o os' ih =>
    simp only [buildOrderRows] at h
    split at h
    · exact absurd h (by simp)
    · rename_i r hr
      split at h
      · exact absurd h (by simp)
      · rename_i rs hrs
        injection h with h
        subst h
        simp [ih hrs]

theorem list_orders_length (src : List Order) (limit : Nat) :
    (list_orders src limit).length ≤ limit := by
  simp [list_orders, List.length_take]

theorem list_orders_sorted (src : List Order) (limit : Nat) :
    List.Sorted newerFirst (list_orders src limit) :=
  List.Pairwise.sublist (List.take_sublist limit _)
    (List.sorted_insertionSort newerFirst src)

/-! ## Claims -/

/-- Claim C1: for every valid account snapshot rendered by the dashboard, the
"Today's P/L" KPI displays exactly `equity - last_equity`, formatted at the
presentation boundary; the difference is taken on the exact (rational)
values. -/
theorem C1_todays_pl_metric (baseline : ℚ) (a : Account) (ps : List Position)
    (os : List Order) (hf : Except ApiError (List HistoryPoint)) (ws : List Widget)
    (h : runDashboard baseline (Except.ok (a, ps, os)) hf = Except.ok ws) :
    Widget.stMetric "Today\x27s P/L" (formatUSD (a.equity - a.last_equity)) ∈ ws := by
  obtain ⟨body, hb, hws⟩ := runDashboard_ok_shape baseline _ hf ws h
  obtain ⟨osec, -, hbody⟩ := renderMain_some_ok baseline a ps os _ body hb
  subst hws hbody
  simp [kpiWidgets, List.mem_append]

/-- Closed witness for C1 at the spec's example snapshot. -/
theorem C1_todays_pl_metric_witness :
    Widget.stMetric "Today\x27s P/L"
        (formatUSD (sampleAccount.equity - sampleAccount.last_equity)) ∈
      okWidgets (runDashboard 100000 (Except.ok (sampleAccount, [], [])) (Except.ok [])) :=
  C1_todays_pl_metric 100000 sampleAccount [] [] (Except.ok []) _
    (by with_unfolding_all rfl)

/-- Claim C2: the "Total P/L" KPI displays exactly `equity - baseline_cash`
for the configured baseline, and on the spec's example scenario
(equity 105320.50, last_equity 104800.00, baseline_cash 100000.00) the two
displayed P/L strings are "$520.50" and "$5,320.50". -/
theorem C2_total_pl_metric :
    (∀ (baseline : ℚ) (a : Account) (ps : List Position) (os : List Order)
        (hf : Except ApiError (List HistoryPoint)) (ws : List Widget),
      runDashboard baseline (Except.ok (a, ps, os)) hf = Except.ok ws →
        Widget.stMetric "Total P/L" (formatUSD (a.equity - baseline)) ∈ ws) ∧
    formatUSD (sampleAccount.equity - sampleAccount.last_equity) = "$520.50" ∧
    formatUSD (sampleAccount.equity - 100000) = "$5,320.50" := by
  refine ⟨?_, by with_unfolding_all rfl, by with_unfolding_all rfl⟩
  intro baseline a ps os hf ws h
  obtain ⟨body, hb, hws⟩ := runDashboard_ok_shape baseline _ hf ws h
  obtain ⟨osec, -, hbody⟩ := renderMain_some_ok baseline a ps os _ body hb
  subst hws hbody
  simp [kpiWidgets, List.mem_append]

/-- Closed witness for C2 at the spec's example snapshot. -/
theorem C2_total_pl_metric_witness :
    Widget.stMetric "Total P/L" (formatUSD (sampleAccount.equity - 100000)) ∈
      okWidgets (runDashboard 100000 (Except.ok (sampleAccount, [], [])) (Except.ok [])) :=
  C2_total_pl_metric.1 100000 sampleAccount [] [] (Except.ok []) _
    (by with_unfolding_all rfl)

/-- Claim C8: the position's percentage field travels as a ratio and is
multiplied by 100 only when the display cell is built; for
`unrealized_plpc = 0.0532` the rendered cell is exactly "5.32%". -/
theorem C8_percent_ratio :
    (∀ p : Position,
      (buildPositionRow p).unrealized_plpc = format2 (p.unrealized_plpc * 100) ++ "%") ∧
    examplePosition.unrealized_plpc = 532 / 10000 ∧
    (buildPositionRow examplePosition).unrealized_plpc = "5.32%" :=
  ⟨fun _ => rfl, rfl, by with_unfolding_all rfl⟩

/-- Claim C10: an order row builds only when `filled_qty`,
`filled_avg_price` and `filled_at` are all present; a canceled order with
`filled_avg_price = None` makes row construction raise, aborting the whole
orders section (and render pass), while fully filled fields always build a
row. -/
theorem C10_order_row_requires_fill :
    buildOrderRow canceledOrder =
      Except.error "TypeError: float() argument must not be None" ∧
    (∀ (baseline : ℚ) (a : Account),
      runDashboard baseline (Except.ok (a, [], [canceledOrder])) (Except.ok []) =
        Except.error "TypeError: float() argument must not be None") ∧
    (∀ (sym side otype status : String) (q p : ℚ) (t : Nat),
      ∃ r, buildOrderRow
        { symbol := sym, filled_qty := some q, side := side, order_type := otype,
          filled_avg_price := some p, status := status, filled_at := some t } =
        Except.ok r) :=
  ⟨rfl, fun _ _ => rfl, fun _ _ _ _ _ _ _ => ⟨_, rfl⟩⟩

/-- Counterexample to claim C3 as stated: on a failing account fetch the
handler writes nothing to the log and emits an `st.error` box, not a
warning. -/
theorem C3_counterexample :
    (get_account_data (Except.error ⟨"rate limit exceeded"⟩)).logs = [] ∧
    (get_account_data (Except.error ⟨"rate limit exceeded"⟩)).widgets =
      [Widget.stError "Error fetching data from Alpaca: rate limit exceeded"] ∧
    ∀ m, Widget.stWarning m ∉
      (get_account_data (Except.error ⟨"rate limit exceeded"⟩)).widgets := by
  refine ⟨rfl, rfl, ?_⟩
  intro m hm
  simp [get_account_data] at hm

/-- Claim C3 as amended: every Market Data Client failure surfaces one
user-visible `st.error` message (no log record, no warning box) and
substitutes an empty or absent result, after which the render pass always
completes without crashing. -/
theorem C3_api_failure_degrades (e : ApiError) :
    get_account_data (Except.error e) =
      { data := (none, [], []),
        widgets := [Widget.stError ("Error fetching data from Alpaca: " ++ e.msg)],
        logs := [] } ∧
    get_portfolio_history (Except.error e) =
      { data := [],
        widgets := [Widget.stError ("Error fetching portfolio history: " ++ e.msg)],
        logs := [] } ∧
    (∀ (baseline : ℚ) (hf : Except ApiError (List HistoryPoint)),
      ∃ ws, runDashboard baseline (Except.error e) hf = Except.ok ws) ∧
    (∀ (baseline : ℚ) (a : Account) (ps : List Position),
      ∃ ws, runDashboard baseline (Except.ok (a, ps, [])) (Except.error e) =
        Except.ok ws) :=
  ⟨rfl, rfl, fun _ _ => ⟨_, rfl⟩, fun _ _ _ => ⟨_, rfl⟩⟩

/-- Any widget of a successful render pass with a fetched account is the
title, the button, a history-fetch error box, or one of the body's pieces. -/
theorem mem_runDashboard_account {w : Widget} {baseline : ℚ} {a : Account}
    {ps : List Position} {os : List Order}
    {hf : Except ApiError (List HistoryPoint)} {ws : List Widget}
    (h : runDashboard baseline (Except.ok (a, ps, os)) hf = Except.ok ws)
    (hm : w ∈ ws) :
    w = Widget.stTitle "📈 Alpaca Trading Performance Overview" ∨
    w = Widget.stButton "Refresh Data" ∨
    w ∈ (get_portfolio_history hf).widgets ∨
    w ∈ kpiWidgets baseline a ∨
    w = Widget.stHeader "Portfolio Value Over Time (30 Days)" ∨
    w ∈ historySection (get_portfolio_history hf).data ∨
    w = Widget.stHeader "Current Open Positions" ∨
    w ∈ positionsSection ps ∨
    w = Widget.stHeader "Recent Closed Orders (Last 100)" ∨
    ∃ osec, ordersSection os = Except.ok osec ∧ w ∈ osec := by
  obtain ⟨body, hb, hws⟩ := runDashboard_ok_shape baseline _ hf ws h
  have hb2 : renderMain baseline (some a) ps os (get_portfolio_history hf).data =
      Except.ok body := hb
  obtain ⟨osec, hos, hbody⟩ := renderMain_some_ok baseline a ps os _ body hb2
  have hws2 : ws = [Widget.stTitle "📈 Alpaca Trading Performance Overview",
      Widget.stButton "Refresh Data"]
    ++ (get_portfolio_history hf).widgets ++ body := hws
  subst hws2 hbody
  simp only [List.mem_append, List.mem_cons, List.not_mem_nil, or_false] at hm
  tauto

/-- Any widget of a successful render pass with the account fetch failed is
the title, the button, one of the two fetch error boxes, or the gate's
error box. -/
theorem mem_runDashboard_noaccount {w : Widget} {baseline : ℚ} {e : ApiError}
    {hf : Except ApiError (List HistoryPoint)} {ws : List Widget}
    (h : runDashboard baseline (Except.error e) hf = Except.ok ws)
    (hm : w ∈ ws) :
    w = Widget.stTitle "📈 Alpaca Trading Performance Overview" ∨
    w = Widget.stButton "Refresh Data" ∨
    w = Widget.stError ("Error fetching data from Alpaca: " ++ e.msg) ∨
    w ∈ (get_portfolio_history hf).widgets ∨
    w = Widget.stError "Could not connect to Alpaca to fetch account data." := by
  obtain ⟨body, hb, hws⟩ := runDashboard_ok_shape baseline _ hf ws h
  have hb2 : Except.ok [Widget.stError
      "Could not connect to Alpaca to fetch account data."] = Except.ok body := hb
  injection hb2 with hb2
  have hws2 : ws = [Widget.stTitle "📈 Alpaca Trading Performance Overview",
      Widget.stButton "Refresh Data"]
    ++ [Widget.stError ("Error fetching data from Alpaca: " ++ e.msg)]
    ++ (get_portfolio_history hf).widgets ++ body := hws
  subst hws2
  subst hb2
  simp only [List.mem_append, List.mem_cons, List.not_mem_nil, or_false] at hm
  tauto

/-- Claim C7: with a valid account, an empty positions list renders the
"No open positions." informational message and an empty orders list renders
"No recent closed orders found.", and no dataframe (blank table) is shown
for either. -/
theorem C7_empty_state (baseline : ℚ) (a : Account)
    (hf : Except ApiError (List HistoryPoint)) (ws : List Widget)
    (h : runDashboard baseline (Except.ok (a, [], [])) hf = Except.ok ws) :
    Widget.stInfo "No open positions." ∈ ws ∧
    Widget.stInfo "No recent closed orders found." ∈ ws ∧
    (∀ rows, Widget.stDataframePositions rows ∉ ws) ∧
    (∀ rows, Widget.stDataframeOrders rows ∉ ws) := by
  obtain ⟨body, hb, hws⟩ := runDashboard_ok_shape baseline _ hf ws h
  have hb2 : renderMain baseline (some a) [] [] (get_portfolio_history hf).data =
      Except.ok body := hb
  obtain ⟨osec, hos, hbody⟩ := renderMain_some_ok baseline a [] [] _ body hb2
  simp only [ordersSection] at hos
  injection hos with hos
  have hws2 : ws = [Widget.stTitle "📈 Alpaca Trading Performance Overview",
      Widget.stButton "Refresh Data"]
    ++ (get_portfolio_history hf).widgets ++ body := hws
  refine ⟨?_, ?_, ?_, ?_⟩
  · subst hws2 hbody
    simp [positionsSection, List.mem_append]
  · subst hws2 hbody hos
    simp [List.mem_append]
  · intro rows hmem
    rcases mem_runDashboard_account h hmem with
      h1 | h1 | h1 | h1 | h1 | h1 | h1 | h1 | h1 | ⟨osec2, ho2, h2⟩
    · exact absurd h1 (by simp)
    · exact absurd h1 (by simp)
    · obtain ⟨m, hm⟩ := mem_history_widgets h1
      exact absurd hm (by simp)
    · rcases mem_kpiWidgets h1 with ⟨t, ht⟩ | ⟨l, v, hlv⟩
      · exact absurd ht (by simp)
      · exact absurd hlv (by simp)
    · exact absurd h1 (by simp)
    · rcases mem_historySection h1 with hw | ⟨pts, hp⟩
      · exact absurd hw (by simp)
      · exact absurd hp (by simp)
    · exact absurd h1 (by simp)
    · simp [positionsSection] at h1
    · exact absurd h1 (by simp)
    · rcases mem_ordersSection ho2 h2 with hw | ⟨rows2, -, hp⟩
      · exact absurd hw (by simp)
      · exact absurd hp (by simp)
  · intro rows hmem
    rcases mem_runDashboard_account h hmem with
      h1 | h1 | h1 | h1 | h1 | h1 | h1 | h1 | h1 | ⟨osec2, ho2, h2⟩
    · exact absurd h1 (by simp)
    · exact absurd h1 (by simp)
    · obtain ⟨m, hm⟩ := mem_history_widgets h1
      exact absurd hm (by simp)
    · rcases mem_kpiWidgets h1 with ⟨t, ht⟩ | ⟨l, v, hlv⟩
      · exact absurd ht (by simp)
      · exact absurd hlv (by simp)
    · exact absurd h1 (by simp)
    · rcases mem_historySection h1 with hw | ⟨pts, hp⟩
      · exact absurd hw (by simp)
      · exact absurd hp (by simp)
    · exact absurd h1 (by simp)
    · simp [positionsSection] at h1
    · exact absurd h1 (by simp)
    · simp only [ordersSection] at ho2
      injection ho2 with ho2
      subst ho2
      simp at h2

/-- Closed witness for C7 at the spec's example snapshot with empty
positions and orders. -/
theorem C7_empty_state_witness :
    Widget.stInfo "No open positions." ∈
      okWidgets (runDashboard 100000 (Except.ok (sampleAccount, [], [])) (Except.ok [])) ∧
    Widget.stInfo "No recent closed orders found." ∈
      okWidgets (runDashboard 100000 (Except.ok (sampleAccount, [], [])) (Except.ok [])) :=
  have h := C7_empty_state 100000 sampleAccount (Except.ok []) _
    (by with_unfolding_all rfl)
  ⟨h.1, h.2.1⟩

/-- Counterexample to claim C4 as stated: when the account fetch fails the
page shows two `st.error` boxes (the fetch handler's and the gate's), not
exactly one. -/
theorem C4_counterexample :
    (get_account_data (Except.error ⟨"connection reset"⟩)).data.1 = none ∧
    errorCount (okWidgets (runDashboard 100000
      (Except.error ⟨"connection reset"⟩)
      (Except.ok [{ timestamp := 0, equity := 1, profit_loss := 0,
                    profit_loss_pct := 0 }]))) = 2 :=
  ⟨rfl, by with_unfolding_all rfl⟩

/-- Claim C4 as amended: with the account snapshot absent, the gated region
renders exactly one error message and every other section is suppressed --
no KPI metric, no chart, no positions or orders table, and no empty-state
info message is rendered; the fetch failure itself contributes one more
error box above the gate (and a failed history fetch a third). -/
theorem C4_account_gate (baseline : ℚ) (e : ApiError)
    (hf : Except ApiError (List HistoryPoint)) (ws : List Widget)
    (h : runDashboard baseline (Except.error e) hf = Except.ok ws) :
    renderMain baseline none [] [] (get_portfolio_history hf).data =
      Except.ok [Widget.stError "Could not connect to Alpaca to fetch account data."] ∧
    Widget.stError "Could not connect to Alpaca to fetch account data." ∈ ws ∧
    (∀ l v, Widget.stMetric l v ∉ ws) ∧
    (∀ pts, Widget.stLineChart pts ∉ ws) ∧
    (∀ rows, Widget.stDataframePositions rows ∉ ws) ∧
    (∀ rows, Widget.stDataframeOrders rows ∉ ws) ∧
    (∀ m, Widget.stInfo m ∉ ws) ∧
    errorCount ws = 2 + errorCount (get_portfolio_history hf).widgets := by
  obtain ⟨body, hb, hws⟩ := runDashboard_ok_shape baseline _ hf ws h
  have hb2 : Except.ok [Widget.stError
      "Could not connect to Alpaca to fetch account data."] = Except.ok body := hb
  injection hb2 with hb2
  refine ⟨rfl, ?_, ?_, ?_, ?_, ?_, ?_, ?_⟩
  · subst hws
    subst hb2
    simp [List.mem_append]
  · intro l v hmem
    rcases mem_runDashboard_noaccount h hmem with h1 | h1 | h1 | h1 | h1
    · exact absurd h1 (by simp)
    · exact absurd h1 (by simp)
    · exact absurd h1 (by simp)
    · obtain ⟨m, hm⟩ := mem_history_widgets h1
      exact absurd hm (by simp)
    · exact absurd h1 (by simp)
  · intro pts hmem
    rcases mem_runDashboard_noaccount h hmem with h1 | h1 | h1 | h1 | h1
    · exact absurd h1 (by simp)
    · exact absurd h1 (by simp)
    · exact absurd h1 (by simp)
    · obtain ⟨m, hm⟩ := mem_history_widgets h1
      exact absurd hm (by simp)
    · exact absurd h1 (by simp)
  · intro rows hmem
    rcases mem_runDashboard_noaccount h hmem with h1 | h1 | h1 | h1 | h1
    · exact absurd h1 (by simp)
    · exact absurd h1 (by simp)
    · exact absurd h1 (by simp)
    · obtain ⟨m, hm⟩ := mem_history_widgets h1
      exact absurd hm (by simp)
    · exact absurd h1 (by simp)
  · intro rows hmem
    rcases mem_runDashboard_noaccount h hmem with h1 | h1 | h1 | h1 | h1
    · exact absurd h1 (by simp)
    · exact absurd h1 (by simp)
    · exact absurd h1 (by simp)
    · obtain ⟨m, hm⟩ := mem_history_widgets h1
      exact absurd hm (by simp)
    · exact absurd h1 (by simp)
  · intro m hmem
    rcases mem_runDashboard_noaccount h hmem with h1 | h1 | h1 | h1 | h1
    · exact absurd h1 (by simp)
    · exact absurd h1 (by simp)
    · exact absurd h1 (by simp)
    · obtain ⟨m2, hm⟩ := mem_history_widgets h1
      exact absurd hm (by simp)
    · exact absurd h1 (by simp)
  · subst hws
    subst hb2
    cases hf with
    | ok v =>
      simp [errorCount, get_account_data, get_portfolio_history, List.filter_append]
    | error e2 =>
      simp [errorCount, get_account_data, get_portfolio_history, List.filter_append]

/-- Closed witness for C4 as amended, at a concrete failing fetch. -/
theorem C4_account_gate_witness :
    Widget.stError "Could not connect to Alpaca to fetch account data." ∈
      okWidgets (runDashboard 100000 (Except.error ⟨"connection reset"⟩)
        (Except.ok [])) ∧
    errorCount (okWidgets (runDashboard 100000 (Except.error ⟨"connection reset"⟩)
        (Except.ok []))) = 2 + errorCount (get_portfolio_history (Except.ok [])).widgets :=
  have h := C4_account_gate 100000 ⟨"connection reset"⟩ (Except.ok []) _
    (by with_unfolding_all rfl)
  ⟨h.2.1, h.2.2.2.2.2.2.2⟩

/-- Claim C9: credential loading succeeds exactly when `api_key`,
`secret_key` and a numeric `total_portfolio_cash` are all present; a
missing `base_url` alone defaults to the paper-trading endpoint; and any
loading failure halts startup with the single fatal operator-facing error
box, with no retry and no default for a required secret. -/
theorem C9_config_fail_fast (s : Secrets) :
    ((∃ c, load_credentials s = Except.ok c) ↔
      (s.api_key ≠ none ∧ s.secret_key ≠ none ∧
        ∃ raw q, s.total_portfolio_cash = some raw ∧ parseFloat raw = some q)) ∧
    (∀ c, load_credentials s = Except.ok c →
      c.base_url = s.base_url.getD "https://paper-api.alpaca.markets") ∧
    (∀ e, load_credentials s = Except.error e →
      startup s = StartupResult.halted [Widget.stError
        "FATAL: Could not connect to Alpaca API. Have you set your secrets in the Streamlit dashboard?"]) := by
  obtain ⟨key, sec, base, cash⟩ := s
  refine ⟨⟨?_, ?_⟩, ?_, ?_⟩
  · rintro ⟨c, hc⟩
    cases key with
    | none => exact absurd hc (by simp [load_credentials])
    | some k =>
      cases sec with
      | none => exact absurd hc (by simp [load_credentials])
      | some sk =>
        cases cash with
        | none => exact absurd hc (by simp [load_credentials])
        | some raw =>
          refine ⟨by simp, by simp, raw, ?_⟩
          simp only [load_credentials] at hc
          cases hq : parseFloat raw with
          | none =>
            rw [hq] at hc
            exact absurd hc (by simp)
          | some q => exact ⟨q, rfl, rfl⟩
  · rintro ⟨hk, hs, raw, q, hraw, hq⟩
    cases key with
    | none => exact absurd rfl hk
    | some k =>
      cases sec with
      | none => exact absurd rfl hs
      | some sk =>
        cases hraw
        exact ⟨{ api_key := k, api_secret := sk,
                 base_url := base.getD "https://paper-api.alpaca.markets",
                 baseline_cash := q }, by simp [load_credentials, hq]⟩
  · intro c hc
    cases key with
    | none => exact absurd hc (by simp [load_credentials])
    | some k =>
      cases sec with
      | none => exact absurd hc (by simp [load_credentials])
      | some sk =>
        cases cash with
        | none => exact absurd hc (by simp [load_credentials])
        | some raw =>
          simp only [load_credentials] at hc
          cases hq : parseFloat raw with
          | none =>
            rw [hq] at hc
            exact absurd hc (by simp)
          | some q =>
            rw [hq] at hc
            injection hc with hc
            subst hc
            rfl
  · intro e he
    simp only [startup, he]

/-- Closed witness for C9: full secrets load with the default endpoint; a
missing API key halts startup. -/
theorem C9_config_fail_fast_witness :
    (∃ c, load_credentials
        ⟨some "key", some "secret", none, some "100000"⟩ = Except.ok c) ∧
    (∀ c, load_credentials ⟨some "key", some "secret", none, some "100000"⟩ =
        Except.ok c → c.base_url = "https://paper-api.alpaca.markets") ∧
    startup ⟨none, some "secret", none, some "100000"⟩ =
      StartupResult.halted [Widget.stError
        "FATAL: Could not connect to Alpaca API. Have you set your secrets in the Streamlit dashboard?"] :=
  ⟨(C9_config_fail_fast ⟨some "key", some "secret", none, some "100000"⟩).1.mpr
      ⟨by simp, by simp, "100000", 100000, rfl, by with_unfolding_all rfl⟩,
    fun c hc => (C9_config_fail_fast ⟨some "key", some "secret", none,
      some "100000"⟩).2.1 c hc,
    (C9_config_fail_fast ⟨none, some "secret", none, some "100000"⟩).2.2
      "KeyError: api_key" rfl⟩

/-- Claim C5: an account fetch stores its result for 300 seconds (the
5-minute time-to-live); a second call within that window returns the
identical value with no remote call; a call at or past the deadline, or any
call after the "Refresh Data" action, fetches remotely; and the refresh
action drops both the 300-second account entry and the 3600-second history
entry unconditionally. -/
theorem C5_cache_ttl :
    (∀ (A H : Type) (c : DashCache A H) (t0 t1 : Nat) (r1 r2 : A),
      c.account = none → t1 < t0 + 300 →
        fetchAccountCached c t0 r1 =
          (r1, { c with account := some (t0, r1) }, true) ∧
        fetchAccountCached { c with account := some (t0, r1) } t1 r2 =
          (r1, { c with account := some (t0, r1) }, false)) ∧
    (∀ (A H : Type) (c : DashCache A H) (t0 t1 : Nat) (r1 r2 : A),
      t0 + 300 ≤ t1 →
        fetchAccountCached { c with account := some (t0, r1) } t1 r2 =
          (r2, { c with account := some (t1, r2) }, true)) ∧
    (∀ (A H : Type) (c : DashCache A H) (t0 t1 : Nat) (r1 r2 : H),
      t1 < t0 + 3600 →
        fetchHistoryCached { c with history := some (t0, r1) } t1 r2 =
          (r1, { c with history := some (t0, r1) }, false)) ∧
    (∀ (A H : Type) (c : DashCache A H) (t0 t1 : Nat) (r1 r2 : H),
      t0 + 3600 ≤ t1 →
        fetchHistoryCached { c with history := some (t0, r1) } t1 r2 =
          (r2, { c with history := some (t1, r2) }, true)) ∧
    (∀ (A H : Type) (c : DashCache A H),
      refreshData c = { account := none, history := none }) ∧
    (∀ (A H : Type) (c : DashCache A H) (t : Nat) (r : A),
      fetchAccountCached (refreshData c) t r =
        (r, { account := some (t, r), history := none }, true)) ∧
    (∀ (A H : Type) (c : DashCache A H) (t : Nat) (r : H),
      fetchHistoryCached (refreshData c) t r =
        (r, { account := none, history := some (t, r) }, true)) := by
  refine ⟨?_, ?_, ?_, ?_, ?_, ?_, ?_⟩
  · intro A H c t0 t1 r1 r2 hnone hlt
    constructor
    · simp [fetchAccountCached, cacheGet, hnone]
    · simp [fetchAccountCached, cacheGet, hlt]
  · intro A H c t0 t1 r1 r2 hge
    simp [fetchAccountCached, cacheGet, Nat.not_lt.mpr hge]
  · intro A H c t0 t1 r1 r2 hlt
    simp [fetchHistoryCached, cacheGet, hlt]
  · intro A H c t0 t1 r1 r2 hge
    simp [fetchHistoryCached, cacheGet, Nat.not_lt.mpr hge]
  · intro A H c
    rfl
  · intro A H c t r
    rfl
  · intro A H c t r
    rfl

/-- Closed witness for C5 on concrete times: store at 0, hit at 299, miss
at 300, and a refresh forces a remote call. -/
theorem C5_cache_ttl_witness :
    fetchAccountCached ({ account := none, history := none } : DashCache Nat Nat) 0 7 =
      (7, { account := some (0, 7), history := none }, true) ∧
    fetchAccountCached ({ account := some (0, 7), history := none } : DashCache Nat Nat)
      299 9 = (7, { account := some (0, 7), history := none }, false) ∧
    fetchAccountCached ({ account := some (0, 7), history := none } : DashCache Nat Nat)
      300 9 = (9, { account := some (300, 9), history := none }, true) ∧
    fetchHistoryCached (refreshData
      ({ account := some (0, 7), history := some (0, 5) } : DashCache Nat Nat)) 1 6 =
      (6, { account := none, history := some (1, 6) }, true) :=
  ⟨(C5_cache_ttl.1 Nat Nat { account := none, history := none } 0 299 7 9 rfl
      (by decide)).1,
    (C5_cache_ttl.1 Nat Nat { account := none, history := none } 0 299 7 9 rfl
      (by decide)).2,
    C5_cache_ttl.2.1 Nat Nat { account := none, history := none } 0 300 7 9
      (by decide),
    C5_cache_ttl.2.2.2.2.2.2 Nat Nat
      { account := some (0, 7), history := some (0, 5) } 1 6⟩

/-- Claim C6: the pipeline requests at most 100 closed orders, newest first
by `filled_at` (the endpoint model honors `limit=100, direction='desc'`),
so whatever the data source holds -- even more than 100 closed orders --
the fetched list has at most 100 entries, is sorted newest-first, and any
orders table the render pass displays has at most 100 rows. -/
theorem C6_orders_limit :
    (∀ src : List Order, (list_orders src 100).length ≤ 100 ∧
      List.Sorted newerFirst (list_orders src 100)) ∧
    (∀ (src : List Order) (baseline : ℚ) (a : Account) (ps : List Position)
        (hf : Except ApiError (List HistoryPoint)) (ws : List Widget)
        (rows : List OrderRow),
      runDashboard baseline (Except.ok (a, ps, list_orders src 100)) hf = Except.ok ws →
      Widget.stDataframeOrders rows ∈ ws → rows.length ≤ 100) := by
  refine ⟨fun src => ⟨list_orders_length src 100, list_orders_sorted src 100⟩, ?_⟩
  intro src baseline a ps hf ws rows h hmem
  rcases mem_runDashboard_account h hmem with
    h1 | h1 | h1 | h1 | h1 | h1 | h1 | h1 | h1 | ⟨osec2, ho2, h2⟩
  · exact absurd h1 (by simp)
  · exact absurd h1 (by simp)
  · obtain ⟨m, hm⟩ := mem_history_widgets h1
    exact absurd hm (by simp)
  · rcases mem_kpiWidgets h1 with ⟨t, ht⟩ | ⟨l, v, hlv⟩
    · exact absurd ht (by simp)
    · exact absurd hlv (by simp)
  · exact absurd h1 (by simp)
  · rcases mem_historySection h1 with hw | ⟨pts, hp⟩
    · exact absurd hw (by simp)
    · exact absurd hp (by simp)
  · exact absurd h1 (by simp)
  · rcases mem_positionsSection h1 with hw | ⟨rows2, hp⟩
    · exact absurd hw (by simp)
    · exact absurd hp (by simp)
  · exact absurd h1 (by simp)
  · rcases mem_ordersSection ho2 h2 with hw | ⟨rows2, hbr, heq⟩
    · exact absurd hw (by simp)
    · injection heq with heq
      subst heq
      rw [buildOrderRows_length hbr]
      exact list_orders_length src 100

/-- Closed witness for C6 on a concrete source list. -/
theorem C6_orders_limit_witness :
    (list_orders [sampleOrder] 100).length ≤ 100 ∧
    (okOrderRows (buildOrderRows (list_orders [sampleOrder] 100))).length ≤ 100 :=
  ⟨(C6_orders_limit.1 [sampleOrder]).1,
    C6_orders_limit.2 [sampleOrder] 100000 sampleAccount [] (Except.ok []) _
      (okOrderRows (buildOrderRows (list_orders [sampleOrder] 100)))
      (by with_unfolding_all rfl) (by with_unfolding_all decide)⟩

end PerformancePortal
